import Mathlib

/-!
Shallow embedding of `scripts/utilities/system-info-gatherer.py` (Cursor OS).

External effects (subprocess.run, shutil.which, os.path.exists, reads of the
/proc pseudo-files) are passed in as explicit environment records, so every
probe is a pure function of its environment.  Python dictionaries are
insertion-ordered association lists; Python exceptions are modelled with
`Except`/`Option` values and explicit outcome types.  The Python string
operations used by the script (strip, split, substring test, int parsing)
are implemented structurally over `List Char` so that they compute.
-/

namespace SysInfo

/-- Result of a completed external command (`subprocess.run`): exit status and
the captured text of standard output and standard error. -/
structure CmdResult where
  returncode : Int
  stdout : String
  stderr : String
deriving DecidableEq, Repr

/-- Outcome of `subprocess.run` under a timeout: the process completed
(possibly with a failing exit status), the timeout expired
(`subprocess.TimeoutExpired`), or some other exception was raised while
executing it (carrying the exception text). -/
inductive RunOutcome where
  | ok : CmdResult → RunOutcome
  | timeout : RunOutcome
  | exc : String → RunOutcome
deriving DecidableEq, Repr

/-- A value stored in one of the probes' dictionaries: a string, a float
(modelled as an exact rational — every float the script stores is an exact
binary rational) or a boolean. -/
inductive PyVal where
  | str : String → PyVal
  | num : ℚ → PyVal
  | bool : Bool → PyVal
deriving DecidableEq, Repr

/-- A Python dictionary with string keys, modelled as an insertion-ordered
association list. -/
abbrev Dict (α : Type) := List (String × α)

/-- `d[k] = v`, Python dictionary assignment: an existing key keeps its
position and receives the new value, a new key is appended at the end.  (The
dictionaries this program builds never hold a key twice, so updating the
first occurrence is the Python behavior.) -/
def dictSet : Dict α → String → α → Dict α
  | [], k, v => [(k, v)]
  | p :: d, k, v => if p.1 == k then (k, v) :: d else p :: dictSet d k v

/-- `d[k]`, as a partial lookup: the first value stored under `k`. -/
def dictGet (d : Dict α) (k : String) : Option α :=
  (d.find? (fun p => p.1 == k)).map Prod.snd

/-- The keys of a dictionary, in insertion order. -/
def keys (d : Dict α) : List String := d.map Prod.fst

/-- `s.strip()`: drop whitespace from both ends.  (The inputs the script
strips only carry the ASCII whitespace recognised by `Char.isWhitespace`.) -/
def pyStrip (s : String) : String :=
  ⟨((s.data.dropWhile Char.isWhitespace).reverse.dropWhile
      Char.isWhitespace).reverse⟩

/-- Worker for `pySplitWs`: `acc` holds the characters of the current
(reversed) token. -/
def splitWsGo : List Char → List Char → List String
  | acc, [] => if acc.isEmpty then [] else [⟨acc.reverse⟩]
  | acc, c :: cs =>
    if c.isWhitespace then
      (if acc.isEmpty then [] else [⟨acc.reverse⟩]) ++ splitWsGo [] cs
    else splitWsGo (c :: acc) cs

/-- `s.split()` (no separator): the maximal whitespace-free runs of `s`. -/
def pySplitWs (s : String) : List String := splitWsGo [] s.data

/-- `s.split('\n')[0]`: the first line of a text (`str.split` never returns
an empty list, so the index is safe). -/
def pyFirstLine (s : String) : String := ⟨s.data.takeWhile (fun c => c != '\n')⟩

/-- Whether `pre` is an initial segment of `l`. -/
def listStartsWith : List Char → List Char → Bool
  | [], _ => true
  | _ :: _, [] => false
  | a :: as, b :: bs => a == b && listStartsWith as bs

/-- Whether `sub` occurs contiguously in `l`. -/
def listContainsSub (sub : List Char) : List Char → Bool
  | [] => listStartsWith sub []
  | c :: cs => listStartsWith sub (c :: cs) || listContainsSub sub cs

/-- `sub in s`, Python substring containment. -/
def pyContains (s sub : String) : Bool := listContainsSub sub.data s.data

/-- Worker for `pyInt`: fold decimal digits, failing on a non-digit. -/
def digitsToNat : Nat → List Char → Option Nat
  | n, [] => some n
  | n, c :: cs =>
    if c.isDigit then digitsToNat (n * 10 + (c.toNat - '0'.toNat)) cs else none

/-- `int(tok)` on a decimal token: the parsed integer, or `none` where Python
`int()` raises `ValueError`.  (The program only applies it to tokens already
free of surrounding whitespace and digit-group underscores.) -/
def pyInt (s : String) : Option Int :=
  match s.data with
  | [] => none
  | '-' :: cs =>
    if cs.isEmpty then none else (digitsToNat 0 cs).map (fun n => -(n : Int))
  | '+' :: cs =>
    if cs.isEmpty then none else (digitsToNat 0 cs).map (fun n => (n : Int))
  | cs => (digitsToNat 0 cs).map (fun n => (n : Int))

/-- Worker for `pySplitNl`: `acc` holds the (reversed) current field. -/
def splitNlGo : List Char → List Char → List String
  | acc, [] => [⟨acc.reverse⟩]
  | acc, c :: cs =>
    if c == '\n' then ⟨acc.reverse⟩ :: splitNlGo [] cs
    else splitNlGo (c :: acc) cs

/-- `s.split('\n')`: split at every newline, keeping empty fields. -/
def pySplitNl (s : String) : List String := splitNlGo [] s.data

/-- Worker for `pySplitColonSpace`: `acc` holds the (reversed) current
field. -/
def splitColonSpGo : List Char → List Char → List String
  | acc, [] => [⟨acc.reverse⟩]
  | acc, [c] => [⟨(c :: acc).reverse⟩]
  | acc, c₁ :: c₂ :: cs =>
    if c₁ == ':' && c₂ == ' ' then ⟨acc.reverse⟩ :: splitColonSpGo [] cs
    else splitColonSpGo (c₁ :: acc) (c₂ :: cs)

/-- `s.split(': ')`: split at every (non-overlapping, leftmost-first)
occurrence of the two-character separator, keeping empty fields. -/
def pySplitColonSpace (s : String) : List String := splitColonSpGo [] s.data

/-- The integer nearest to `q`, ties going to the even integer — the rounding
rule of Python 3 `round`. -/
def roundHalfEven (q : ℚ) : ℤ :=
  if q - ⌊q⌋ < 1/2 then ⌊q⌋
  else if q - ⌊q⌋ > 1/2 then ⌊q⌋ + 1
  else if ⌊q⌋ % 2 = 0 then ⌊q⌋ else ⌊q⌋ + 1

/-- `round(x, 1)`: round to one decimal digit, ties to even.  The quantities
this program rounds are exact binary rationals (a count of kibibytes or bytes
divided by a power of two), on which float `round` agrees with exact rational
rounding. -/
def pyRound1 (q : ℚ) : ℚ := (roundHalfEven (q * 10) : ℚ) / 10

/-! ## Hardware probe: get_hardware_info -/

/-- Environment of the hardware probe: `platform.system()`, `subprocess.run`
(invoked without a timeout, so the only failure is a raised exception), and
the two `/proc` pseudo-files as lists of lines (or the text of the exception
raised when opening/reading them). -/
structure HwEnv where
  os : String
  run : List String → Except String CmdResult
  meminfo : Except String (List String)
  cpuinfo : Except String (List String)

/-- The Windows branch of the `try` body of `get_hardware_info`: the
dictionary at the moment the branch finished, together with the text of the
exception that interrupted it, if any. -/
def hw_windows (env : HwEnv) : Dict PyVal × Option String :=
  match env.run ["wmic", "computersystem", "get", "TotalPhysicalMemory"] with
  | .error e => ([], some e)
  | .ok result =>
    let step1 : Dict PyVal × Option String :=
      if result.returncode = 0 then
        let lines := pySplitNl (pyStrip result.stdout)
        if lines.length > 1 then
          match pyInt (pyStrip (lines.getD 1 "")) with
          | none => ([], some "invalid literal for int() with base 10")
          | some memory_bytes =>
            ([("ram_gb", .num (pyRound1 ((memory_bytes : ℚ) / 1024 ^ 3)))],
             none)
        else ([], none)
      else ([], none)
    match step1 with
    | (d, some e) => (d, some e)
    | (d, none) =>
      match env.run ["wmic", "cpu", "get", "Name"] with
      | .error e => (d, some e)
      | .ok r2 =>
        if r2.returncode = 0 then
          let lines := pySplitNl (pyStrip r2.stdout)
          if lines.length > 1 then
            (dictSet d "cpu" (.str (pyStrip (lines.getD 1 ""))), none)
          else (d, none)
        else (d, none)

/-- The macOS (Darwin) branch of the `try` body of `get_hardware_info`. -/
def hw_darwin (env : HwEnv) : Dict PyVal × Option String :=
  match env.run ["sysctl", "hw.memsize"] with
  | .error e => ([], some e)
  | .ok result =>
    let step1 : Dict PyVal × Option String :=
      if result.returncode = 0 then
        match (pySplitColonSpace result.stdout).get? 1 with
        | none => ([], some "list index out of range")
        | some field =>
          match pyInt field with
          | none => ([], some "invalid literal for int() with base 10")
          | some memory_bytes =>
            ([("ram_gb", .num (pyRound1 ((memory_bytes : ℚ) / 1024 ^ 3)))],
             none)
      else ([], none)
    match step1 with
    | (d, some e) => (d, some e)
    | (d, none) =>
      match env.run ["sysctl", "-n", "machdep.cpu.brand_string"] with
      | .error e => (d, some e)
      | .ok r2 =>
        if r2.returncode = 0 then
          (dictSet d "cpu" (.str (pyStrip r2.stdout)), none)
        else (d, none)

/-- The Linux branch of the `try` body of `get_hardware_info`: scan
`/proc/meminfo` for the first `MemTotal:` line, then `/proc/cpuinfo` for the
first `model name` line. -/
def hw_linux (env : HwEnv) : Dict PyVal × Option String :=
  match env.meminfo with
  | .error e => ([], some e)
  | .ok lines =>
    let step1 : Dict PyVal × Option String :=
      match lines.find? (fun l => pyContains l "MemTotal:") with
      | none => ([], none)
      | some line =>
        match (pySplitWs line).get? 1 with
        | none => ([], some "list index out of range")
        | some tok =>
          match pyInt tok with
          | none => ([], some "invalid literal for int() with base 10")
          | some memory_kb =>
            ([("ram_gb", .num (pyRound1 ((memory_kb : ℚ) / 1024 ^ 2)))], none)
    match step1 with
    | (d, some e) => (d, some e)
    | (d, none) =>
      match env.cpuinfo with
      | .error e => (d, some e)
      | .ok lines2 =>
        match lines2.find? (fun l => pyContains l "model name") with
        | none => (d, none)
        | some line =>
          match (pySplitColonSpace line).get? 1 with
          | none => (d, some "list index out of range")
          | some field =>
            (dictSet d "cpu" (.str (pyStrip field)), none)

/-- The whole `try` body of `get_hardware_info`: the dictionary at the moment
the body finished, together with the text of the exception that interrupted
it, if any.  An OS name outside the three families leaves the dictionary
empty. -/
def hw_body (env : HwEnv) : Dict PyVal × Option String :=
  if env.os == "Windows" then hw_windows env
  else if env.os == "Darwin" then hw_darwin env
  else if env.os == "Linux" then hw_linux env
  else ([], none)

/-- `get_hardware_info`: run the OS-specific body; when it raised, the
`except` clause assigns the `error` key on the very dictionary the body was
mutating, so fields gathered before the exception stay in place. -/
def get_hardware_info (env : HwEnv) : Dict PyVal :=
  match hw_body env with
  | (d, none) => d
  | (d, some e) =>
    dictSet d "error" (.str ("Could not gather hardware info: " ++ e))

/-! ## Tool probe: check_installed_software -/

/-- The fixed `check_commands` table of the tool probe:
tool label ↦ version command. -/
def check_commands : List (String × List String) := [
  ("git", ["git", "--version"]),
  ("node", ["node", "--version"]),
  ("npm", ["npm", "--version"]),
  ("python", ["python", "--version"]),
  ("python3", ["python3", "--version"]),
  ("pip", ["pip", "--version"]),
  ("docker", ["docker", "--version"]),
  ("code", ["code", "--version"]),
  ("curl", ["curl", "--version"]),
  ("wget", ["wget", "--version"]),
  ("rust", ["rustc", "--version"]),
  ("cargo", ["cargo", "--version"]),
  ("go", ["go", "version"]),
  ("java", ["java", "-version"]),
  ("mvn", ["mvn", "--version"]),
  ("gradle", ["gradle", "--version"]),
  ("yarn", ["yarn", "--version"]),
  ("composer", ["composer", "--version"]),
  ("php", ["php", "--version"]),
  ("ruby", ["ruby", "--version"]),
  ("gem", ["gem", "--version"]),
  ("terraform", ["terraform", "--version"]),
  ("kubectl", ["kubectl", "version", "--client"]),
  ("ansible", ["ansible", "--version"]),
  ("vagrant", ["vagrant", "--version"])]

/-- Environment of the tool probe: `shutil.which` on an executable name, and
`subprocess.run` (invoked with `timeout=5`) on a command line. -/
structure ToolEnv where
  which : String → Bool
  run : List String → RunOutcome

/-- One iteration of the loop of `check_installed_software`: `none` when the
tool is skipped (`shutil.which(command[0])` found nothing), otherwise the
value recorded for the tool. -/
def check_tool (env : ToolEnv) (command : List String) : Option String :=
  if env.which (command.headD "") then
    some (match env.run command with
      | .ok result =>
        if result.returncode = 0 then
          let version := pyStrip (pyFirstLine result.stdout)
          if result.stderr != "" then pyStrip (pyFirstLine result.stderr)
          else version
        else "installed (version check failed)"
      | .timeout => "installed (timeout)"
      | .exc _ => "installed (error checking version)")
  else none

/-- The loop body of `check_installed_software`, as a fold step over the
dictionary built so far. -/
def toolStep (env : ToolEnv) (tools : Dict String)
    (entry : String × List String) : Dict String :=
  match check_tool env entry.2 with
  | some v => dictSet tools entry.1 v
  | none => tools

/-- `check_installed_software`: fold the fixed table, recording a value for
every tool present on the search path. -/
def check_installed_software (env : ToolEnv) : Dict String :=
  check_commands.foldl (toolStep env) []

/-! ## Environment probe: detect_development_environments -/

/-- Environment of the IDE probe: `platform.system()` and
`os.path.exists`. -/
structure EnvsEnv where
  os : String
  pathExists : String → Bool

/-- The candidate list assigned in the Windows branch of
`detect_development_environments` (display-name hints; the source never
iterates it). -/
def windows_common_paths : List (String × String) := [
  ("Visual Studio Code", "Microsoft VS Code"),
  ("Visual Studio", "Microsoft Visual Studio"),
  ("IntelliJ IDEA", "JetBrains"),
  ("PyCharm", "JetBrains"),
  ("WebStorm", "JetBrains"),
  ("Sublime Text", "Sublime HQ"),
  ("Atom", "GitHub"),
  ("Notepad++", "Notepad++")]

/-- The candidate list of the macOS branch: application-bundle path and the
display name recorded for it. -/
def darwin_common_paths : List (String × String) := [
  ("/Applications/Visual Studio Code.app", "VS Code"),
  ("/Applications/Xcode.app", "Xcode"),
  ("/Applications/IntelliJ IDEA.app", "IntelliJ IDEA"),
  ("/Applications/PyCharm.app", "PyCharm"),
  ("/Applications/WebStorm.app", "WebStorm"),
  ("/Applications/Sublime Text.app", "Sublime Text"),
  ("/Applications/Atom.app", "Atom")]

/-- `detect_development_environments`: the `for` loop over the candidate
paths sits inside the macOS branch only, so the Windows branch merely
declares its list and falls through to return the empty dictionary, and any
other OS returns it too. -/
def detect_development_environments (env : EnvsEnv) : Dict String :=
  if env.os == "Windows" then []
  else if env.os == "Darwin" then
    darwin_common_paths.foldl (fun environments pn =>
      if env.pathExists pn.1 then dictSet environments pn.2 "installed"
      else environments) []
  else []

/-! ## Network probe: get_network_info -/

/-- Outcome of the network probe's single ping invocation: the command
completed, or an exception was raised while executing it (failure to launch,
or the 5-second timeout — the probe's bare `except` treats both alike). -/
inductive PingOutcome where
  | ok : CmdResult → PingOutcome
  | exc : PingOutcome
deriving DecidableEq, Repr

/-- Environment of the network probe: `platform.system()` and the ping
invocation. -/
structure NetEnv where
  os : String
  run : List String → PingOutcome

/-- `get_network_info`: one ping of 8.8.8.8 with OS-appropriate flags; the
exit status becomes a boolean, and any exception turns the entry into the
string `"unknown"`. -/
def get_network_info (env : NetEnv) : Dict PyVal :=
  match env.run (if env.os != "Windows" then ["ping", "-c", "1", "8.8.8.8"]
                 else ["ping", "-n", "1", "8.8.8.8"]) with
  | .ok result =>
    dictSet [] "internet_connected" (.bool (result.returncode == 0))
  | .exc => dictSet [] "internet_connected" (.str "unknown")

/-! ## Report writer: save_to_markdown -/

/-- The aggregated Report assembled in `main`: one field per probe. -/
structure Report where
  system : Dict PyVal
  hardware : Dict PyVal
  software : Dict String
  environments : Dict String
  shell : Dict PyVal
  network : Dict PyVal

/-- `key.replace('_', ' ')` for the single-character pattern the writer
uses. -/
def pyReplaceUnderscore (s : String) : String :=
  ⟨s.data.map (fun c => if c == '_' then ' ' else c)⟩

/-- Worker for `pyTitle`: the flag records whether the previous character was
alphabetic. -/
def pyTitleGo : Bool → List Char → List Char
  | _, [] => []
  | prevAlpha, c :: cs =>
    (if c.isAlpha then (if prevAlpha then c.toLower else c.toUpper) else c) ::
      pyTitleGo c.isAlpha cs

/-- `s.title()`: uppercase the first letter of every alphabetic run,
lowercase its remaining letters. -/
def pyTitle (s : String) : String := ⟨pyTitleGo false s.data⟩

/-- Decimal rendering of a float that is an integer multiple of 1/10 — the
only floats this script stores (results of `round(x, 1)`).  Python prints
such a float with one digit after the point, which this reproduces for the
nonnegative values the probes can produce. -/
def pyFloatStr (q : ℚ) : String :=
  toString (⌊q * 10⌋ / 10) ++ "." ++ toString (⌊q * 10⌋ % 10)

/-- `str(value)` for the values an f-string of the writer interpolates. -/
def pyStr : PyVal → String
  | .str s => s
  | .num q => pyFloatStr q
  | .bool b => if b then "True" else "False"

/-- A humanized bullet line of the report:
`f"- **{key.replace('_', ' ').title()}**: {value}\n"`. -/
def bulletHuman (k : String) (v : PyVal) : String :=
  "- **" ++ pyTitle (pyReplaceUnderscore k) ++ "**: " ++ pyStr v ++ "\n"

/-- A raw bullet line of the report (tools and environments sections):
`f"- **{k}**: {v}\n"`. -/
def bulletRaw (k v : String) : String := "- **" ++ k ++ "**: " ++ v ++ "\n"

/-- `save_to_markdown`, as the sequence of `f.write` chunks, in order (`now`
stands for the formatted `datetime.now()`).  The environments section is
guarded by the truthiness of the `environments` dictionary. -/
def save_to_markdown (now : String) (data : Report) : List String :=
  ["# Computer Information\n\n",
   "*Generated on " ++ now ++ "*\n\n",
   "## System Information\n"] ++
  data.system.map (fun p => bulletHuman p.1 p.2) ++ ["\n"] ++
  ["## Hardware\n"] ++
  data.hardware.map (fun p => bulletHuman p.1 p.2) ++ ["\n"] ++
  ["## Installed Development Tools\n"] ++
  data.software.map (fun p => bulletRaw p.1 p.2) ++ ["\n"] ++
  (if data.environments.isEmpty then [] else
    ["## Development Environments\n"] ++
    data.environments.map (fun p => bulletRaw p.1 p.2) ++ ["\n"]) ++
  ["## Shell Information\n"] ++
  data.shell.map (fun p => bulletHuman p.1 p.2) ++ ["\n"] ++
  ["## Network\n"] ++
  data.network.map (fun p => bulletHuman p.1 p.2)

/-! ## Concrete environments used as claim inputs -/

/-- A Linux host where `/proc/meminfo` is readable but reading
`/proc/cpuinfo` raises. -/
def envC1 : HwEnv :=
  ⟨"Linux", fun _ => .error "no subprocess",
   .ok ["MemTotal:       16384000 kB"],
   .error "cpuinfo unreadable"⟩

/-- A search path holding none of the 25 executables. -/
def envC2 : ToolEnv := ⟨fun _ => false, fun _ => .exc "unreachable"⟩

/-- Only `git` is on the path; its version command succeeds with a stdout
first line carrying a leading space and an empty stderr. -/
def envC3 : ToolEnv :=
  ⟨fun e => e == "git",
   fun c => if c == ["git", "--version"] then .ok ⟨0, " v1.2.3\n", ""⟩
            else .exc "absent"⟩

/-- Only `git` is on the path; its version command succeeds cleanly. -/
def envC3w : ToolEnv :=
  ⟨fun e => e == "git",
   fun c => if c == ["git", "--version"] then .ok ⟨0, "v1.2.3\n", ""⟩
            else .exc "absent"⟩

/-- Only `git` is on the path; its version command hits the 5-second
timeout. -/
def envC4 : ToolEnv :=
  ⟨fun e => e == "git",
   fun c => if c == ["git", "--version"] then .timeout else .exc "absent"⟩

/-- A Linux host whose pseudo-files both read fine. -/
def envC5 : HwEnv :=
  ⟨"Linux", fun _ => .error "no subprocess",
   .ok ["MemTotal:       16384000 kB"],
   .ok ["model name\t: Fake CPU"]⟩

/-- A Linux host where the ping command cannot be launched. -/
def envC6 : NetEnv := ⟨"Linux", fun _ => .exc⟩

/-- A Windows host on which every candidate path exists. -/
def envC7 : EnvsEnv := ⟨"Windows", fun _ => true⟩

/-- A report with one detected development environment. -/
def reportC8 : Report :=
  ⟨[("os", .str "Darwin")], [("ram_gb", .num (78/5))],
   [("git", "git version 2.39.0")], [("Xcode", "installed")],
   [("current_shell", .str "/bin/zsh")], [("internet_connected", .bool true)]⟩

/-- Only `git` is on the path; its version command exits 0 with empty stdout
and a stderr first line carrying a leading space. -/
def envC9 : ToolEnv :=
  ⟨fun e => e == "git",
   fun c => if c == ["git", "--version"] then
              .ok ⟨0, "", " java version 17\n"⟩
            else .exc "absent"⟩

/-- Only `git` is on the path; its version command exits 0 with empty stdout
and empty stderr. -/
def envC10 : ToolEnv :=
  ⟨fun e => e == "git",
   fun c => if c == ["git", "--version"] then .ok ⟨0, "", ""⟩
            else .exc "absent"⟩

/-- The first character of a string, if any (used to tell report chunks of
different shapes apart). -/
def firstChar (s : String) : Option Char := s.data.head?

/-! ## Dictionary lemmas -/

theorem dictGet_dictSet_self (d : Dict α) (k : String) (v : α) :
    dictGet (dictSet d k v) k = some v := by
  induction d with
  | nil => simp [dictSet, dictGet, List.find?_cons]
  | cons p d ih =>
    cases hb : (p.1 == k) with
    | true => simp [dictSet, hb, dictGet, List.find?_cons]
    | false => simpa [dictSet, hb, dictGet, List.find?_cons] using ih

theorem dictGet_dictSet_ne (d : Dict α) (k k' : String) (v : α)
    (h : k' ≠ k) : dictGet (dictSet d k' v) k = dictGet d k := by
  have hb : (k' == k) = false := by simp [h]
  induction d with
  | nil => simp [dictSet, dictGet, List.find?_cons, hb]
  | cons p d ih =>
    cases hp : (p.1 == k') with
    | true =>
      have hpk : (p.1 == k) = false := by
        have : p.1 = k' := by simpa using hp
        simp [this, h]
      simp [dictSet, hp, dictGet, List.find?_cons, hpk, hb]
    | false =>
      cases hk : (p.1 == k) with
      | true => simp [dictSet, hp, dictGet, List.find?_cons, hk]
      | false => simpa [dictSet, hp, dictGet, List.find?_cons, hk] using ih

theorem mem_dictSet_elim (d : Dict α) (k : String) (v : α) (p : String × α)
    (h : p ∈ dictSet d k v) : p ∈ d ∨ p = (k, v) := by
  induction d with
  | nil => simpa [dictSet] using h
  | cons q d ih =>
    cases hq : (q.1 == k) with
    | true =>
      simp only [dictSet, hq, if_true] at h
      rcases List.mem_cons.mp h with h1 | h2
      · exact Or.inr h1
      · exact Or.inl (List.mem_cons_of_mem _ h2)
    | false =>
      simp only [dictSet, hq, Bool.false_eq_true, if_false] at h
      rcases List.mem_cons.mp h with h1 | h2
      · exact Or.inl (h1 ▸ List.mem_cons_self _ _)
      · rcases ih h2 with h3 | h3
        · exact Or.inl (List.mem_cons_of_mem _ h3)
        · exact Or.inr h3

theorem keys_dictSet_iff (d : Dict α) (k : String) (v : α) (k' : String) :
    k' ∈ keys (dictSet d k v) ↔ k' = k ∨ k' ∈ keys d := by
  induction d with
  | nil => simp [dictSet, keys]
  | cons q d ih =>
    obtain ⟨qk, qv⟩ := q
    cases hq : (qk == k) with
    | true =>
      have hqk : qk = k := by simpa using hq
      subst hqk
      simp only [dictSet, beq_self_eq_true, if_true, keys, List.map_cons,
        List.mem_cons]
      tauto
    | false =>
      simp only [dictSet, hq, Bool.false_eq_true, if_false, keys,
        List.map_cons, List.mem_cons] at ih ⊢
      tauto

theorem mem_keys_iff (d : Dict α) (k : String) :
    k ∈ keys d ↔ ∃ v, (k, v) ∈ d := by
  constructor
  · intro h
    rcases List.mem_map.mp h with ⟨p, hp, hk⟩
    exact ⟨p.2, by rwa [← hk, Prod.mk.eta]⟩
  · rintro ⟨v, hv⟩
    exact List.mem_map.mpr ⟨(k, v), hv, rfl⟩

/-! ## Lemmas about the tool-probe fold -/

theorem check_tool_of_absent (env : ToolEnv) (command : List String)
    (h : env.which (command.headD "") = false) :
    check_tool env command = none := by
  rw [check_tool, h]
  rfl

theorem check_tool_isSome_of_present (env : ToolEnv) (command : List String)
    (h : env.which (command.headD "") = true) :
    ∃ v, check_tool env command = some v :=
  ⟨_, by rw [check_tool, h]; rfl⟩

theorem check_commands_keys_nodup : (check_commands.map Prod.fst).Nodup := by
  decide

theorem key_unique (table : List (String × List String)) (k : String)
    (c₁ c₂ : List String) :
    (table.map Prod.fst).Nodup → (k, c₁) ∈ table → (k, c₂) ∈ table →
      c₁ = c₂ := by
  induction table with
  | nil => intro _ h₁ _; cases h₁
  | cons e rest ih =>
    intro hnd h₁ h₂
    rw [List.map_cons, List.nodup_cons] at hnd
    have hnd' := hnd
    rcases List.mem_cons.mp h₁ with e₁ | r₁ <;>
      rcases List.mem_cons.mp h₂ with e₂ | r₂
    · simpa using e₁.trans e₂.symm
    · exfalso
      have hk : k ∈ rest.map Prod.fst :=
        List.mem_map.mpr ⟨(k, c₂), r₂, rfl⟩
      rw [← e₁] at hnd'
      exact hnd'.1 hk
    · exfalso
      have hk : k ∈ rest.map Prod.fst :=
        List.mem_map.mpr ⟨(k, c₁), r₁, rfl⟩
      rw [← e₂] at hnd'
      exact hnd'.1 hk
    · exact ih hnd'.2 r₁ r₂

theorem toolFold_get_of_key_not_mem (env : ToolEnv)
    (table : List (String × List String)) (tool : String) :
    ∀ init : Dict String, tool ∉ table.map Prod.fst →
      dictGet (table.foldl (toolStep env) init) tool = dictGet init tool := by
  induction table with
  | nil => intro init _; rfl
  | cons e rest ih =>
    intro init h
    simp only [List.map_cons, List.mem_cons, not_or] at h
    rw [List.foldl_cons, ih _ h.2]
    unfold toolStep
    cases check_tool env e.2 with
    | none => rfl
    | some v => exact dictGet_dictSet_ne _ _ _ _ (fun he => h.1 he.symm)

theorem toolFold_get_of_mem (env : ToolEnv)
    (table : List (String × List String)) (tool : String)
    (command : List String) (v : String) :
    ∀ init : Dict String, (tool, command) ∈ table →
      (table.map Prod.fst).Nodup → check_tool env command = some v →
      dictGet (table.foldl (toolStep env) init) tool = some v := by
  induction table with
  | nil => intro _ hmem _ _; cases hmem
  | cons e rest ih =>
    intro init hmem hnd hct
    rw [List.map_cons, List.nodup_cons] at hnd
    have hnd' := hnd
    rw [List.foldl_cons]
    rcases List.mem_cons.mp hmem with heq | hrest
    · have hkey : tool ∉ rest.map Prod.fst := by
        have h1 := hnd'.1
        rw [← heq] at h1
        exact h1
      rw [toolFold_get_of_key_not_mem env rest tool _ hkey, ← heq]
      simp [toolStep, hct, dictGet_dictSet_self]
    · exact ih _ hrest hnd'.2 hct

theorem toolFold_mem_elim (env : ToolEnv)
    (table : List (String × List String)) (p : String × String) :
    ∀ init : Dict String, p ∈ table.foldl (toolStep env) init →
      p ∈ init ∨ ∃ command, (p.1, command) ∈ table ∧
        check_tool env command = some p.2 := by
  induction table with
  | nil => exact fun _ h => Or.inl h
  | cons e rest ih =>
    intro init h
    rw [List.foldl_cons] at h
    rcases ih _ h with hin | ⟨c, hc, hcs⟩
    · unfold toolStep at hin
      cases hct : check_tool env e.2 with
      | none =>
        rw [hct] at hin
        exact Or.inl hin
      | some v =>
        rw [hct] at hin
        rcases mem_dictSet_elim _ _ _ _ hin with h1 | h1
        · exact Or.inl h1
        · subst h1
          exact Or.inr ⟨e.2, by simp, by simpa using hct⟩
    · exact Or.inr ⟨c, List.mem_cons_of_mem _ hc, hcs⟩

/-! ## Claims about the tool probe -/

/-- C2, counterexample to the claim as stated: the fixed check table has 25
tool entries, not 24. -/
theorem C2_counterexample : ¬ check_commands.length = 24 := by decide

/-- C2 (amended: the table has 25 entries): for every entry of the fixed
check table whose executable is absent from the search path, the tool's
label does not appear as a key of the software mapping. -/
theorem C2_absent_tools_omitted (env : ToolEnv) (tool : String)
    (command : List String) (hmem : (tool, command) ∈ check_commands)
    (habs : env.which (command.headD "") = false) :
    check_commands.length = 25 ∧
      tool ∉ keys (check_installed_software env) := by
  refine ⟨by decide, fun hk => ?_⟩
  rcases (mem_keys_iff _ _).mp hk with ⟨v, hv⟩
  rcases toolFold_mem_elim env check_commands (tool, v) [] hv with
    h0 | ⟨c, hc, hcs⟩
  · cases h0
  · have hcc : c = command :=
      key_unique check_commands tool c command check_commands_keys_nodup hc
        hmem
    rw [hcc, check_tool_of_absent env command habs] at hcs
    cases hcs

/-- C2 witness: a concrete environment where no executable is present. -/
theorem C2_absent_tools_omitted_witness :
    check_commands.length = 25 ∧
      "git" ∉ keys (check_installed_software envC2) :=
  C2_absent_tools_omitted envC2 "git" ["git", "--version"] (by decide)
    (by decide)

/-- C3, counterexample to the claim as stated: with a stdout first line
" v1.2.3" (leading space) the recorded value is the stripped "v1.2.3", which
is not the first line itself. -/
theorem C3_counterexample :
    envC3.run ["git", "--version"] = .ok ⟨0, " v1.2.3\n", ""⟩ ∧
    dictGet (check_installed_software envC3) "git" = some "v1.2.3" ∧
    pyFirstLine " v1.2.3\n" = " v1.2.3" ∧
    ("v1.2.3" : String) ≠ " v1.2.3" := by decide

/-- C3 (amended: the recorded line is additionally stripped of surrounding
whitespace): for a present tool whose version command exits 0, the recorded
value is the stripped first line of stdout when stderr is empty, and the
stripped first line of stderr when stderr is non-empty. -/
theorem C3_version_first_line (env : ToolEnv) (tool : String)
    (command : List String) (r : CmdResult)
    (hmem : (tool, command) ∈ check_commands)
    (hwhich : env.which (command.headD "") = true)
    (hrun : env.run command = .ok r) (hrc : r.returncode = 0) :
    (r.stderr = "" →
      dictGet (check_installed_software env) tool =
        some (pyStrip (pyFirstLine r.stdout))) ∧
    (r.stderr ≠ "" →
      dictGet (check_installed_software env) tool =
        some (pyStrip (pyFirstLine r.stderr))) := by
  constructor
  · intro hse
    refine toolFold_get_of_mem env check_commands tool command _ [] hmem
      check_commands_keys_nodup ?_
    rw [check_tool, hwhich, hrun]
    simp [hrc, hse]
  · intro hse
    refine toolFold_get_of_mem env check_commands tool command _ [] hmem
      check_commands_keys_nodup ?_
    rw [check_tool, hwhich, hrun]
    simp [hrc, hse]

/-- C3 witness: a concrete environment where git alone is present and its
version command succeeds with empty stderr. -/
theorem C3_version_first_line_witness :
    ("" : String) = "" ∧
    dictGet (check_installed_software envC3w) "git" =
      some (pyStrip (pyFirstLine "v1.2.3\n")) :=
  ⟨rfl, (C3_version_first_line envC3w "git" ["git", "--version"]
    ⟨0, "v1.2.3\n", ""⟩ (by decide) (by decide) (by decide) rfl).1 rfl⟩

/-- C4: a present tool records exactly one of three distinct failure
statuses — "installed (version check failed)" on a non-zero exit,
"installed (timeout)" on the 5-second timeout, and
"installed (error checking version)" on any other execution error — and no
failure prevents any other present tool from being recorded. -/
theorem C4_failure_statuses (env : ToolEnv) (tool : String)
    (command : List String) (hmem : (tool, command) ∈ check_commands)
    (hwhich : env.which (command.headD "") = true) :
    (∀ r, env.run command = .ok r → r.returncode ≠ 0 →
      dictGet (check_installed_software env) tool =
        some "installed (version check failed)") ∧
    (env.run command = .timeout →
      dictGet (check_installed_software env) tool =
        some "installed (timeout)") ∧
    (∀ e, env.run command = .exc e →
      dictGet (check_installed_software env) tool =
        some "installed (error checking version)") ∧
    (("installed (version check failed)" : String) ≠ "installed (timeout)" ∧
     ("installed (version check failed)" : String) ≠
       "installed (error checking version)" ∧
     ("installed (timeout)" : String) ≠
       "installed (error checking version)") ∧
    (∀ tool₂ command₂, (tool₂, command₂) ∈ check_commands →
      env.which (command₂.headD "") = true →
      (dictGet (check_installed_software env) tool₂).isSome = true) := by
  refine ⟨?_, ?_, ?_, ⟨by decide, by decide, by decide⟩, ?_⟩
  · intro r hrun hrc
    refine toolFold_get_of_mem env check_commands tool command _ [] hmem
      check_commands_keys_nodup ?_
    rw [check_tool, hwhich, hrun]
    simp [hrc]
  · intro hrun
    refine toolFold_get_of_mem env check_commands tool command _ [] hmem
      check_commands_keys_nodup ?_
    rw [check_tool, hwhich, hrun]
    rfl
  · intro e hrun
    refine toolFold_get_of_mem env check_commands tool command _ [] hmem
      check_commands_keys_nodup ?_
    rw [check_tool, hwhich, hrun]
    rfl
  · intro tool₂ command₂ hm₂ hw₂
    rcases check_tool_isSome_of_present env command₂ hw₂ with ⟨v, hv⟩
    rw [check_installed_software, toolFold_get_of_mem env check_commands
      tool₂ command₂ v [] hm₂ check_commands_keys_nodup hv]
    rfl

/-- C4 witness: a concrete environment where git alone is present and its
version command times out. -/
theorem C4_failure_statuses_witness :
    dictGet (check_installed_software envC4) "git" =
      some "installed (timeout)" :=
  (C4_failure_statuses envC4 "git" ["git", "--version"] (by decide)
    (by decide)).2.1 (by decide)

/-- C9, counterexample to the claim as stated: a value can be the *stripped*
first line of stderr, which is neither the first line of stdout nor of
stderr nor one of the three fixed statuses. -/
theorem C9_counterexample :
    envC9.run ["git", "--version"] = .ok ⟨0, "", " java version 17\n"⟩ ∧
    ("git", "java version 17") ∈ check_installed_software envC9 ∧
    pyFirstLine "" = "" ∧
    pyFirstLine " java version 17\n" = " java version 17" ∧
    ¬(("java version 17" : String) = "" ∨
      ("java version 17" : String) = " java version 17" ∨
      ("java version 17" : String) = "installed (version check failed)" ∨
      ("java version 17" : String) = "installed (timeout)" ∨
      ("java version 17" : String) = "installed (error checking version)") :=
  by decide

/-- C9 (amended: output lines are additionally stripped of surrounding
whitespace): every key of the software mapping is a label of the fixed check
table, and every value is either the stripped first line of the tool
command's stdout or stderr, or one of the three fixed statuses. -/
theorem C9_software_mapping_invariant (env : ToolEnv) (tool v : String)
    (hmem : (tool, v) ∈ check_installed_software env) :
    tool ∈ check_commands.map Prod.fst ∧
    ((∃ command r, (tool, command) ∈ check_commands ∧
        env.run command = .ok r ∧
        (v = pyStrip (pyFirstLine r.stdout) ∨
         v = pyStrip (pyFirstLine r.stderr))) ∨
     v = "installed (version check failed)" ∨
     v = "installed (timeout)" ∨
     v = "installed (error checking version)") := by
  rcases toolFold_mem_elim env check_commands (tool, v) [] hmem with
    h0 | ⟨c, hc, hcs⟩
  · cases h0
  refine ⟨List.mem_map.mpr ⟨(tool, c), hc, rfl⟩, ?_⟩
  by_cases hw : env.which (c.headD "") = true
  · rw [check_tool, hw, if_pos rfl] at hcs
    injection hcs with hcs
    cases hrun : env.run c with
    | ok r =>
      rw [hrun] at hcs
      by_cases hrc : r.returncode = 0
      · by_cases hse : r.stderr = ""
        · simp only [hrc, if_true, hse] at hcs
          exact Or.inl ⟨c, r, hc, hrun, Or.inl (by simpa using hcs.symm)⟩
        · simp only [hrc, if_true] at hcs
          rw [show (r.stderr != "") = true by simpa using hse] at hcs
          exact Or.inl ⟨c, r, hc, hrun, Or.inr (by simpa using hcs.symm)⟩
      · simp only [hrc, if_false] at hcs
        exact Or.inr (Or.inl hcs.symm)
    | timeout =>
      rw [hrun] at hcs
      exact Or.inr (Or.inr (Or.inl hcs.symm))
    | exc e =>
      rw [hrun] at hcs
      exact Or.inr (Or.inr (Or.inr hcs.symm))
  · rw [check_tool_of_absent env c (by simpa using hw)] at hcs
    cases hcs

/-- C9 witness: the invariant instantiated at a concrete run. -/
theorem C9_software_mapping_invariant_witness :
    "git" ∈ check_commands.map Prod.fst ∧
    ((∃ command r, ("git", command) ∈ check_commands ∧
        envC9.run command = .ok r ∧
        ("java version 17" = pyStrip (pyFirstLine r.stdout) ∨
         "java version 17" = pyStrip (pyFirstLine r.stderr))) ∨
     "java version 17" = "installed (version check failed)" ∨
     "java version 17" = "installed (timeout)" ∨
     "java version 17" = "installed (error checking version)") :=
  C9_software_mapping_invariant envC9 "git" "java version 17" (by decide)

/-- C10: a present tool whose version command exits 0 with empty stdout and
empty stderr is recorded with the empty string, not a status. -/
theorem C10_empty_output_empty_string (env : ToolEnv) (tool : String)
    (command : List String) (hmem : (tool, command) ∈ check_commands)
    (hwhich : env.which (command.headD "") = true)
    (hrun : env.run command = .ok ⟨0, "", ""⟩) :
    dictGet (check_installed_software env) tool = some "" := by
  refine toolFold_get_of_mem env check_commands tool command _ [] hmem
    check_commands_keys_nodup ?_
  rw [check_tool, hwhich, hrun]
  rfl

/-- C10 witness: a concrete environment where git alone is present and its
version command succeeds silently. -/
theorem C10_empty_output_empty_string_witness :
    dictGet (check_installed_software envC10) "git" = some "" :=
  C10_empty_output_empty_string envC10 "git" ["git", "--version"]
    (by decide) (by decide) (by decide)

/-! ## Claims about the hardware probe -/

/-- C1, counterexample to the claim as stated: an exception while reading
`/proc/cpuinfo` leaves the already-gathered `ram_gb` in the result next to
the `error` key, so the result is not a mapping containing only `error`. -/
theorem C1_counterexample :
    (hw_body envC1).2 = some "cpuinfo unreadable" ∧
    keys (get_hardware_info envC1) = ["ram_gb", "error"] ∧
    keys (get_hardware_info envC1) ≠ ["error"] := by decide

/-- C1 (amended): when an exception interrupts the hardware probe, the
`error` key (holding the prefixed exception text) is *added* to the mapping,
and every field gathered before the exception is retained, not discarded. -/
theorem C1_hardware_error_retains_fields (env : HwEnv) (d : Dict PyVal)
    (e : String) (h : hw_body env = (d, some e)) :
    dictGet (get_hardware_info env) "error" =
      some (.str ("Could not gather hardware info: " ++ e)) ∧
    ∀ k, k ∈ keys d → k ∈ keys (get_hardware_info env) := by
  rw [get_hardware_info, h]
  constructor
  · exact dictGet_dictSet_self _ _ _
  · intro k hk
    exact (keys_dictSet_iff _ _ _ _).mpr (Or.inr hk)

/-- C1 witness: the amended claim at the concrete Linux host whose cpuinfo
read raises. -/
theorem C1_hardware_error_retains_fields_witness :
    dictGet (get_hardware_info envC1) "error" =
      some (.str ("Could not gather hardware info: " ++
        "cpuinfo unreadable")) ∧
    ∀ k, k ∈ keys (hw_body envC1).1 →
      k ∈ keys (get_hardware_info envC1) :=
  C1_hardware_error_retains_fields envC1 (hw_body envC1).1
    "cpuinfo unreadable"
    (by
      have h2 : (hw_body envC1).2 = some "cpuinfo unreadable" := by decide
      rw [← h2])

/-- C5: on the Linux path, a memory-info pseudo-file whose first `MemTotal:`
line reads 16384000 kB yields `ram_gb` = 15.6 (= 78/5): the kibibyte count
is divided by 1024^2 and rounded to one decimal. -/
theorem C5_linux_ram_rounding (env : HwEnv) (ls : List String)
    (hos : env.os = "Linux")
    (hmi : env.meminfo = .ok ls)
    (hfind : ls.find? (fun l => pyContains l "MemTotal:") =
      some "MemTotal:       16384000 kB") :
    dictGet (get_hardware_info env) "ram_gb" = some (.num (78/5)) ∧
    pyRound1 ((16384000 : ℚ) / 1024 ^ 2) = 78/5 := by
  have hval : pyRound1 ((16384000 : ℚ) / 1024 ^ 2) = 78/5 := by
    norm_num [pyRound1, roundHalfEven]
  refine ⟨?_, hval⟩
  have hb : hw_body env = hw_linux env := by
    rw [hw_body, hos]
    rfl
  have hsplit : (pySplitWs "MemTotal:       16384000 kB").get? 1 =
      some "16384000" := by decide
  have hint : pyInt "16384000" = some (16384000 : ℤ) := by decide
  simp only [get_hardware_info, hb, hw_linux, hmi, hfind, hsplit, hint]
  cases hcpu : env.cpuinfo with
  | error e2 => simp [dictGet, dictSet, List.find?_cons, hval]
  | ok lines2 =>
    cases hf2 : lines2.find? (fun l => pyContains l "model name") with
    | none => simp [hf2, dictGet, List.find?_cons, hval]
    | some line2 =>
      cases hg2 : (pySplitColonSpace line2)[1]? with
      | none => simp [hf2, hg2, dictGet, dictSet, List.find?_cons, hval]
      | some field =>
        simp [hf2, hg2, dictGet, dictSet, List.find?_cons, hval]

/-- C5 witness: the concrete Linux host of `envC5`. -/
theorem C5_linux_ram_rounding_witness :
    dictGet (get_hardware_info envC5) "ram_gb" = some (.num (78/5)) ∧
    pyRound1 ((16384000 : ℚ) / 1024 ^ 2) = 78/5 :=
  C5_linux_ram_rounding envC5 ["MemTotal:       16384000 kB"] rfl rfl
    (by decide)

/-! ## Claims about the network probe and the environment probe -/

/-- C6: the network entry is the boolean "exit status is 0" when the ping
completed (true exactly on status 0), and the string "unknown" — never a
boolean — when the probe could not be executed. -/
theorem C6_network_connectivity_value (env : NetEnv) :
    (∀ r, env.run (if env.os != "Windows" then ["ping", "-c", "1", "8.8.8.8"]
        else ["ping", "-n", "1", "8.8.8.8"]) = .ok r → r.returncode = 0 →
      dictGet (get_network_info env) "internet_connected" =
        some (.bool true)) ∧
    (∀ r, env.run (if env.os != "Windows" then ["ping", "-c", "1", "8.8.8.8"]
        else ["ping", "-n", "1", "8.8.8.8"]) = .ok r → r.returncode ≠ 0 →
      dictGet (get_network_info env) "internet_connected" =
        some (.bool false)) ∧
    (env.run (if env.os != "Windows" then ["ping", "-c", "1", "8.8.8.8"]
        else ["ping", "-n", "1", "8.8.8.8"]) = .exc →
      dictGet (get_network_info env) "internet_connected" =
        some (.str "unknown")) ∧
    (∀ b : Bool, PyVal.str "unknown" ≠ PyVal.bool b) := by
  refine ⟨?_, ?_, ?_, fun b h => by cases h⟩
  · intro r hr hrc
    rw [get_network_info, hr]
    simp [hrc, dictGet, dictSet, List.find?_cons]
  · intro r hr hrc
    rw [get_network_info, hr]
    simp [hrc, dictGet, dictSet, List.find?_cons]
  · intro hr
    rw [get_network_info, hr]
    rfl

/-- C6 witness: a Linux host whose ping cannot be launched. -/
theorem C6_network_connectivity_value_witness :
    dictGet (get_network_info envC6) "internet_connected" =
      some (.str "unknown") :=
  (C6_network_connectivity_value envC6).2.2.1 (by decide)

/-- C7: for every OS family other than macOS the environment probe returns
the empty mapping — including Windows, whose candidate list is declared but
never consulted. -/
theorem C7_non_macos_empty_environments (env : EnvsEnv)
    (h : env.os ≠ "Darwin") :
    detect_development_environments env = [] := by
  by_cases hw : env.os = "Windows"
  · simp [detect_development_environments, hw]
  · simp [detect_development_environments, hw, h]

/-- C7 witness: a Windows host on which every candidate path exists still
yields no detected environment. -/
theorem C7_non_macos_empty_environments_witness :
    detect_development_environments envC7 = [] :=
  C7_non_macos_empty_environments envC7 (by decide)

/-! ## Claims about the report writer -/

theorem firstChar_append (s t : String) (c : Char)
    (h : firstChar s = some c) : firstChar (s ++ t) = some c := by
  unfold firstChar at h ⊢
  rw [String.data_append]
  cases hs : s.data with
  | nil => rw [hs] at h; cases h
  | cons a as => rw [hs] at h; simpa using h

theorem ne_of_firstChar_ne (a b : String) (ca cb : Char)
    (ha : firstChar a = some ca) (hb : firstChar b = some cb)
    (hc : ca ≠ cb) : a ≠ b := by
  intro e
  subst e
  rw [ha] at hb
  exact hc (Option.some.inj hb)

theorem firstChar_bulletRaw (k v : String) :
    firstChar (bulletRaw k v) = some '-' := by
  rw [bulletRaw]
  apply firstChar_append
  apply firstChar_append
  apply firstChar_append
  apply firstChar_append
  decide

theorem firstChar_bulletHuman (k : String) (v : PyVal) :
    firstChar (bulletHuman k v) = some '-' := by
  rw [bulletHuman]
  apply firstChar_append
  apply firstChar_append
  apply firstChar_append
  apply firstChar_append
  decide

theorem firstChar_generated (now : String) :
    firstChar ("*Generated on " ++ now ++ "*\n\n") = some '*' := by
  apply firstChar_append
  apply firstChar_append
  decide

theorem env_header_ne_bulletRaw (k v : String) :
    "## Development Environments\n" ≠ bulletRaw k v :=
  ne_of_firstChar_ne _ _ '#' '-' (by decide) (firstChar_bulletRaw k v)
    (by decide)

theorem env_header_ne_bulletHuman (k : String) (v : PyVal) :
    "## Development Environments\n" ≠ bulletHuman k v :=
  ne_of_firstChar_ne _ _ '#' '-' (by decide) (firstChar_bulletHuman k v)
    (by decide)

theorem env_header_ne_generated (now : String) :
    "## Development Environments\n" ≠ "*Generated on " ++ now ++ "*\n\n" :=
  ne_of_firstChar_ne _ _ '#' '*' (by decide) (firstChar_generated now)
    (by decide)

/-- C8: the "Development Environments" section appears in the human-readable
report exactly when the environments mapping is non-empty — with one
bulleted entry per detected environment — and the other five section
headers are always present. -/
theorem C8_markdown_sections (now : String) (data : Report) :
    ("## Development Environments\n" ∈ save_to_markdown now data ↔
      data.environments ≠ []) ∧
    "## System Information\n" ∈ save_to_markdown now data ∧
    "## Hardware\n" ∈ save_to_markdown now data ∧
    "## Installed Development Tools\n" ∈ save_to_markdown now data ∧
    "## Shell Information\n" ∈ save_to_markdown now data ∧
    "## Network\n" ∈ save_to_markdown now data ∧
    ∀ p ∈ data.environments,
      bulletRaw p.1 p.2 ∈ save_to_markdown now data := by
  cases he : data.environments with
  | nil =>
    refine ⟨⟨fun hmem => ?_, fun hne => absurd rfl hne⟩,
      by simp [save_to_markdown, he], by simp [save_to_markdown, he],
      by simp [save_to_markdown, he], by simp [save_to_markdown, he],
      by simp [save_to_markdown, he], by simp⟩
    exfalso
    simp only [save_to_markdown, he, List.isEmpty_nil, if_true, ne_eq,
      List.mem_append, List.mem_cons, List.not_mem_nil, List.mem_map,
      or_false, false_or] at hmem
    rcases hmem with
      (((((((((((((h | h | h) | h) | h) | h) | h) | h) | h) | h) | h) | h) |
        h) | h) | h) | h
    all_goals first
      | exact absurd h (by decide)
      | (obtain ⟨a, _, hh⟩ := h
         exact env_header_ne_bulletHuman a.1 a.2 hh.symm)
      | (obtain ⟨a, _, hh⟩ := h
         exact env_header_ne_bulletRaw a.1 a.2 hh.symm)
      | exact env_header_ne_generated now h
  | cons p0 rest =>
    have hmem_env :
        "## Development Environments\n" ∈ save_to_markdown now data := by
      rw [save_to_markdown]
      refine List.mem_append_left _ (List.mem_append_left _
        (List.mem_append_left _ (List.mem_append_left _
        (List.mem_append_left _ (List.mem_append_right _ ?_)))))
      rw [he]
      simp
    have hmem_bullet : ∀ p ∈ p0 :: rest,
        bulletRaw p.1 p.2 ∈ save_to_markdown now data := by
      intro p hp
      rw [save_to_markdown]
      refine List.mem_append_left _ (List.mem_append_left _
        (List.mem_append_left _ (List.mem_append_left _
        (List.mem_append_left _ (List.mem_append_right _ ?_)))))
      rw [he]
      simp only [List.isEmpty_cons, Bool.false_eq_true, if_false]
      exact List.mem_append_left _
        (List.mem_append_right _ (List.mem_map.mpr ⟨p, hp, rfl⟩))
    exact ⟨⟨fun _ => by simp, fun _ => hmem_env⟩,
      by simp [save_to_markdown, he], by simp [save_to_markdown, he],
      by simp [save_to_markdown, he], by simp [save_to_markdown, he],
      by simp [save_to_markdown, he], hmem_bullet⟩

/-- C8 witness: at a concrete report with one detected environment, the
environments section and its bullet are rendered. -/
theorem C8_markdown_sections_witness :
    "## Development Environments\n" ∈
      save_to_markdown "2026-01-01 00:00:00" reportC8 ∧
    bulletRaw "Xcode" "installed" ∈
      save_to_markdown "2026-01-01 00:00:00" reportC8 :=
  ⟨(C8_markdown_sections "2026-01-01 00:00:00" reportC8).1.mpr (by decide),
   (C8_markdown_sections "2026-01-01 00:00:00" reportC8).2.2.2.2.2.2
     ("Xcode", "installed") (by decide)⟩
